import Mathlib

/-!
Verification of the ChartInsight forecast & insight engine.

The Python services under `backend/app/services` (and the band-evaluation
script under `backend/app/scripts`) are shallowly embedded below.
Conventions used throughout:

* Python `float` arithmetic is modelled exactly over `ℚ`; none of the
  verified properties depends on binary floating-point rounding at the
  last bit.  Python's `round` (and the rounding inside `format` specs) is
  banker's rounding, embedded as `pyRound`.
* Fallible Python code is embedded as `Except PyErr _`; raising is
  `Except.error`, a `try/except` block is a `match` on the inner result.
* External effects (yfinance history fetch, the statsmodels ARIMA fit,
  the OpenAI HTTP call, `json.loads`) are passed in as explicit
  arguments, so every embedded function is a pure function of its inputs.
* Timestamps are modelled as day ordinals (`ℕ`) with day `0` a Monday;
  `strftime("%Y-%m-%d")` of increasing dates is strictly increasing, so
  ordering claims are stated on the ordinals.
-/

set_option autoImplicit false
set_option maxRecDepth 100000

/-- Python exception values (constructor = exception class, payload = message). -/
inductive PyErr where
  | valueError (msg : String)
  | typeError (msg : String)
  | keyError (msg : String)
  | indexError (msg : String)
  | attributeError (msg : String)
  | runtimeError (msg : String)
  deriving DecidableEq, Repr

/-- `str(exc)`: the message carried by the exception. -/
def PyErr.toMessage : PyErr → String
  | .valueError m => m
  | .typeError m => m
  | .keyError m => m
  | .indexError m => m
  | .attributeError m => m
  | .runtimeError m => m

/-- Python's `round` to an integer: round half to even (banker's rounding). -/
def pyRound (q : ℚ) : ℤ :=
  if q - ⌊q⌋ < 1/2 then ⌊q⌋
  else if q - ⌊q⌋ > 1/2 then ⌊q⌋ + 1
  else if ⌊q⌋ % 2 = 0 then ⌊q⌋ else ⌊q⌋ + 1

/-- Faithful model of `numpy.interp` on a sorted, duplicate-free knot list
`(x_i, y_i)`: constant extrapolation outside the range, linear
interpolation inside. -/
def np_interp : List (ℚ × ℚ) → ℚ → ℚ
  | [], _ => 0
  | [(_, y0)], _ => y0
  | (x0, y0) :: (x1, y1) :: rest, x =>
    if x ≤ x0 then y0
    else if x ≤ x1 then y0 + (x - x0) * (y1 - y0) / (x1 - x0)
    else np_interp ((x1, y1) :: rest) x

/-! ## Business-day calendar (pandas `date_range(..., freq="B")`)

Day ordinals with day `0` a Monday; a business day is a weekday
(`d % 7 < 5`). `pd.date_range(start, periods=n, freq="B")` anchors on
`start` rolled forward to the next business day and then steps through
consecutive business days. -/

/-- Roll a day forward to the next business day (identity on weekdays). -/
def rollFwdBDay (d : ℕ) : ℕ := if d % 7 < 5 then d else d + (7 - d % 7)

/-- `pd.date_range(start, periods=n, freq="B")` as a list of day ordinals. -/
def bdayList (start : ℕ) : ℕ → List ℕ
  | 0 => []
  | n + 1 => rollFwdBDay start :: bdayList (rollFwdBDay start + 1) n

/-! ## `forecast_service.py` -/

/-- One element of the forecast-band payload
(`{"time": ..., "mean": ..., "lower": ..., "upper": ...}`); the ISO date
string is modelled by the day ordinal. -/
structure ForecastPoint where
  time : ℕ
  mean : ℚ
  lower : ℚ
  upper : ℚ
  deriving DecidableEq, Repr

/-- Modelled from the spec: the statsmodels ARIMA fit/forecast step, which is
external library code.  `fit` is the outcome of `ARIMA(close).fit()` plus
`get_forecast(steps=horizon)` — an exception (`ModelFitError`), or the
per-step `(predicted mean, standard error)` pairs.  Per §4.1 the two-sided
interval at the requested confidence is Gaussian: `mean ± z·se`, where
`z` is the (positive, for confidence in (0,1)) normal quantile; `z` is
passed in alongside the fit outcome. -/
structure ArimaFit where
  steps : List (ℚ × ℚ)
  z : ℚ

/-- `get_forecast_band` (forecast_service.py lines 14-108).  The yfinance
history is passed in as the fetched close column (`none` = NaN row,
dropped by `dropna`), `lastDate` is the ordinal of `close.index[-1]`,
and `fit` the ARIMA outcome.  Python formats the symbol with `!r` in the
no-data message; the quoting is omitted here. -/
def get_forecast_band (symbol : String) (horizon : ℤ) (conf : ℚ)
    (hist : List (Option ℚ)) (arima_order : ℕ × ℕ × ℕ)
    (fit : Except PyErr ArimaFit) (lastDate : ℕ) :
    Except PyErr (List ForecastPoint) :=
  if horizon ≤ 0 then
    .error (.valueError "horizon must be a positive integer")
  else if horizon > 21 * 6 then
    .error (.valueError
      "horizon exceeds supported window (max 126 business days, ~6 months)")
  else if ¬ (0 < conf ∧ conf < 1) then
    .error (.valueError "conf must be between 0 and 1")
  else if hist = [] then
    .error (.valueError ("No historical data found for symbol=" ++ symbol))
  else
    let close := hist.filterMap id
    if close.length < arima_order.1 + arima_order.2.1 + arima_order.2.2 + 5 then
      .error (.valueError ("Not enough data to fit ARIMA model for symbol="
        ++ symbol ++ " (got " ++ toString close.length ++ " points)"))
    else
      match fit with
      | .error e => .error e
      | .ok res =>
        let future_index := bdayList (lastDate + 1) horizon.toNat
        .ok ((future_index.zip res.steps).map fun ts =>
          ⟨ts.1, ts.2.1, ts.2.1 - res.z * ts.2.2, ts.2.1 + res.z * ts.2.2⟩)

/-- `AccuracyReport` (§3); the source reports `rmse = √mse`, which is
irrational over `ℚ`, so the report stores the mean squared error — no
claim reads the rmse value. -/
structure AccuracyReport where
  symbol : String
  holdout_days : ℤ
  mae : ℚ
  mse : ℚ
  mape : ℚ
  test_points : ℕ
  deriving DecidableEq, Repr

/-- `evaluate_forecast_accuracy` (forecast_service.py lines 111-177).
`fit` is the external ARIMA fit on the training split, returning the
`holdout_days` predicted means (or raising).  `mape` divides by the
actual close; ℚ-division by zero is 0 where numpy would emit `inf` — no
claim reads the value. -/
def evaluate_forecast_accuracy (symbol : String) (holdout_days : ℤ)
    (hist : List (Option ℚ)) (arima_order : ℕ × ℕ × ℕ)
    (fit : List ℚ → Except PyErr (List ℚ)) : Except PyErr AccuracyReport :=
  if holdout_days ≤ 0 then
    .error (.valueError "holdout_days must be a positive integer")
  else if holdout_days > 21 * 6 then
    .error (.valueError
      "holdout_days exceeds supported window (max 126 business days, ~6 months)")
  else if hist = [] then
    .error (.valueError ("No historical data found for symbol=" ++ symbol))
  else
    let close := hist.filterMap id
    if (close.length : ℤ) ≤ holdout_days then
      .error (.valueError ("Not enough data to evaluate accuracy: need more than "
        ++ toString holdout_days ++ " data points"))
    else
      let train := close.take (close.length - holdout_days.toNat)
      let test := close.drop (close.length - holdout_days.toNat)
      if train.length < arima_order.1 + arima_order.2.1 + arima_order.2.2 + 5 then
        .error (.valueError ("Not enough training data to fit ARIMA model for symbol="
          ++ symbol ++ " (got " ++ toString train.length ++ " points)"))
      else
        match fit train with
        | .error e => .error e
        | .ok pred =>
          let pairs := test.zip pred
          let n : ℚ := pairs.length
          let mae := (pairs.map fun p => |p.1 - p.2|).sum / n
          let mse := (pairs.map fun p => (p.1 - p.2) ^ 2).sum / n
          let mape := ((pairs.map fun p => |(p.1 - p.2) / p.1|).sum / n) * 100
          .ok ⟨symbol, holdout_days, mae, mse, mape, test.length⟩

/-! ## Python string formatting

Helpers for the f-string format specs the services use (`.1f`, `+.1f`,
`.0f`, `+.0f`, `,.0f`).  Python rounds format output half-to-even on the
decimal expansion of the binary double; this is modelled as `pyRound` on
the exact rational.  A negative value rounding to zero prints `-0.0` in
Python but `0.0` here; no claim reads the digits. -/

/-- Insert thousands separators into a reversed digit list. -/
def commaGroupRev : List Char → List Char
  | a :: b :: c :: d :: rest => a :: b :: c :: ',' :: commaGroupRev (d :: rest)
  | l => l

/-- Format a natural number with thousands separators. -/
def commaGroup (n : ℕ) : String :=
  String.mk ((commaGroupRev (toString n).toList.reverse).reverse)

/-- Left-pad a string with zeros to the given width. -/
def padZeros (width : ℕ) (s : String) : String :=
  if s.length < width then String.mk (List.replicate (width - s.length) '0') ++ s
  else s

/-- Python `format(q, spec)` for fixed-point specs: optional `+` sign,
optional `,` grouping, `decimals` digits after the point. -/
def pyFormatFixed (plus comma : Bool) (decimals : ℕ) (q : ℚ) : String :=
  let scale : ℕ := 10 ^ decimals
  let n := pyRound (q * (scale : ℚ))
  let sign := if n < 0 then "-" else if plus then "+" else ""
  let m := n.natAbs
  let ipStr := if comma then commaGroup (m / scale) else toString (m / scale)
  if decimals = 0 then sign ++ ipStr
  else sign ++ ipStr ++ "." ++ padZeros decimals (toString (m % scale))

/-- Python `str()` of a float; the shortest-repr digits of the binary
double are approximated by an exact decimal (integers as `n.0`, otherwise
six decimals).  Display-only: no claim reads the digits. -/
def pyFloatStr (q : ℚ) : String :=
  if q.den = 1 then toString q.num ++ ".0" else pyFormatFixed false false 6 q

/-! ## Python values (`llm_service.py` payloads)

The LLM helper passes loosely-typed dictionaries around; `PyVal` models
the JSON-serialisable Python values involved. -/

/-- A Python value as used in the service payloads. -/
inductive PyVal where
  | none
  | bool (b : Bool)
  | num (q : ℚ)
  | str (s : String)
  | list (xs : List PyVal)
  | dict (kvs : List (String × PyVal))
  deriving BEq, Repr

/-- Python truthiness (`if v:`). -/
def pyTruthy : PyVal → Bool
  | .none => false
  | .bool b => b
  | .num q => q != 0
  | .str s => s != ""
  | .list xs => !xs.isEmpty
  | .dict kvs => !kvs.isEmpty

/-- Python `a or b`. -/
def pyOr (a b : PyVal) : PyVal := if pyTruthy a then a else b

/-- `d.get(k, default)` on an ordered dictionary. -/
def dictGetD (kvs : List (String × PyVal)) (k : String) (dflt : PyVal) : PyVal :=
  match kvs.find? (fun p => p.1 == k) with
  | some p => p.2
  | Option.none => dflt

/-- `d.get(k)` (default `None`). -/
def dictGet (kvs : List (String × PyVal)) (k : String) : PyVal :=
  dictGetD kvs k .none

/-- `d[k] = v` on a key the dictionary already holds: replace in place,
preserving insertion order (all assignments in the source hit existing
keys). -/
def dictSet (kvs : List (String × PyVal)) (k : String) (v : PyVal) :
    List (String × PyVal) :=
  kvs.map fun p => if p.1 == k then (k, v) else p

mutual

/-- Python `repr()`; string quoting style (Python uses single quotes) is
immaterial here, double quotes are emitted.  Display-only. -/
def pyRepr : PyVal → String
  | .none => "None"
  | .bool b => if b then "True" else "False"
  | .num q => pyFloatStr q
  | .str s => "\"" ++ s ++ "\""
  | .list xs => "[" ++ pyReprList xs ++ "]"
  | .dict kvs => "\x7b" ++ pyReprDict kvs ++ "\x7d"

def pyReprList : List PyVal → String
  | [] => ""
  | [x] => pyRepr x
  | x :: xs => pyRepr x ++ ", " ++ pyReprList xs

def pyReprDict : List (String × PyVal) → String
  | [] => ""
  | [p] => "\"" ++ p.1 ++ "\": " ++ pyRepr p.2
  | p :: ps => "\"" ++ p.1 ++ "\": " ++ pyRepr p.2 ++ ", " ++ pyReprDict ps

end

/-- Python `str()` as used by f-string interpolation. -/
def pyStr : PyVal → String
  | .str s => s
  | v => pyRepr v

mutual

/-- `json.dumps(..., ensure_ascii=False)`; exact digit rendering of
numbers is display-only. -/
def pyJsonDumps : PyVal → String
  | .none => "null"
  | .bool b => if b then "true" else "false"
  | .num q => pyFloatStr q
  | .str s => "\"" ++ s ++ "\""
  | .list xs => "[" ++ pyJsonDumpsList xs ++ "]"
  | .dict kvs => "\x7b" ++ pyJsonDumpsDict kvs ++ "\x7d"

def pyJsonDumpsList : List PyVal → String
  | [] => ""
  | [x] => pyJsonDumps x
  | x :: xs => pyJsonDumps x ++ ", " ++ pyJsonDumpsList xs

def pyJsonDumpsDict : List (String × PyVal) → String
  | [] => ""
  | [p] => "\"" ++ p.1 ++ "\": " ++ pyJsonDumps p.2
  | p :: ps => "\"" ++ p.1 ++ "\": " ++ pyJsonDumps p.2 ++ ", " ++ pyJsonDumpsDict ps

end

/-! ## `analysis_service.py` — indicators and scoring -/

/-- `지표스냅샷` (analysis_service.py lines 34-55): the point-in-time
technical metrics.  `_기술지표_계산` derives it from the OHLCV frame via
rolling standard deviations (irrational square roots), so the insight
pipeline is embedded as a function of the computed snapshot; the claims
quantify over well-formed snapshots. -/
structure «지표스냅샷» where
  close : ℚ
  change_rate : ℚ
  sma20 : ℚ
  sma60 : ℚ
  momentum20_pct : ℚ
  hv20_pct : ℚ
  atr14 : ℚ
  mdd_pct : ℚ
  boll_upper : ℚ
  boll_lower : ℚ
  macd_line : ℚ
  macd_signal : ℚ
  macd_hist : ℚ
  rsi14 : ℚ
  volume_last : ℚ
  volume_avg20 : ℚ
  volume_ratio_pct : ℚ
  psy10_pct : ℚ
  vkospi_level : Option ℚ := Option.none
  vkospi_change_pct : Option ℚ := Option.none
  deriving DecidableEq, Repr

/-- The volatility-score anchor knots of `_변동성점수_계산`
(analysis_service.py lines 177-178). -/
def volKnots : List (ℚ × ℚ) := [(5, 10), (15, 30), (30, 55), (45, 70), (60, 88), (90, 100)]

/-- `_변동성점수_계산` (analysis_service.py lines 167-180):
`int(max(0, min(100, round(np.interp(hv20_pct, knots, scores)))))`.
The `NaN → 0` guard has no counterpart over `ℚ` (no NaN values). -/
def «_변동성점수_계산» (hv20_pct : ℚ) : ℤ :=
  max 0 (min 100 (pyRound (np_interp volKnots hv20_pct)))

/-- Written from the spec's words (§4.4), for comparison with the source
translation `_변동성점수_계산`: "piecewise-linear interpolation mapping
realized volatility (percent) to 0-100 using anchor knots
`{5→10, 15→30, 30→55, 45→70, 60→88, 90→100}`; values outside the range
clamp to the nearest anchor's bound (0 or 100)". -/
def volatility_interp_spec (x : ℚ) : ℚ :=
  if x < 5 then 0
  else if x ≤ 15 then 10 + (x - 5) * 2
  else if x ≤ 30 then 30 + (x - 15) * (5/3)
  else if x ≤ 45 then 55 + (x - 30) * 1
  else if x ≤ 60 then 70 + (x - 45) * (6/5)
  else if x ≤ 90 then 88 + (x - 60) * (2/5)
  else 100

/-- `trend_score` (analysis_service.py line 330):
`70 if ind.sma20 > ind.sma60 else 45`. -/
def «trend_score_계산» (ind : «지표스냅샷») : ℤ :=
  if ind.sma20 > ind.sma60 then 70 else 45

/-- `momentum_score` (analysis_service.py line 331):
`min(100, max(0, 50 + ind.momentum20_pct))` — a Python float (the source
does not round it). -/
def «momentum_score_계산» (ind : «지표스냅샷») : ℚ :=
  min 100 (max 0 (50 + ind.momentum20_pct))

/-- `_신뢰도점수_계산` (analysis_service.py lines 183-197).  The
`momentum_score` argument is a float at the call site.  `band_penalty`
is applied only when `band_range_pct` is truthy (non-zero). -/
def «_신뢰도점수_계산» (trend_score : ℤ) (momentum_score : ℚ)
    (volatility_score : ℤ) (band_range_pct : ℚ) (liquidity_bonus : ℚ) : ℤ :=
  let base : ℚ := 62
  let bonus := ((trend_score : ℚ) - 50) * (32/100)
    + (momentum_score - 50) * (25/100) + liquidity_bonus
  let volatility_penalty := ((max 0 (volatility_score - 60) : ℤ) : ℚ) * (35/100)
  let band_penalty := if band_range_pct ≠ 0 then min 15 (max 0 (band_range_pct * 100)) else 0
  let score := base + bonus - volatility_penalty - band_penalty
  max 0 (min 100 (pyRound score))

/-- `ScoreSet` (§3): the four scores the insight build produces from a
snapshot (analysis_service.py lines 330-341).  `momentum_score` is a
Python float in the source; the other three are ints. -/
structure ScoreSet where
  trend_score : ℤ
  momentum_score : ℚ
  volatility_score : ℤ
  confidence_score : ℤ
  deriving DecidableEq, Repr

/-- The scoring step of the insight build (analysis_service.py lines
330-341): derives the `ScoreSet` from the snapshot, the band width as a
fraction of price, and the liquidity bonus (`_유동성보너스_계산` is
log10-based; its value, in `[0, 8]`, is passed in). -/
def «점수집합_계산» (ind : «지표스냅샷») (band_range_pct : ℚ)
    (liquidity_bonus : ℚ) : ScoreSet :=
  let trend := «trend_score_계산» ind
  let momentum := «momentum_score_계산» ind
  let volatility := «_변동성점수_계산» ind.hv20_pct
  ⟨trend, momentum, volatility,
    «_신뢰도점수_계산» trend momentum volatility band_range_pct liquidity_bonus⟩

/-- `밴드요약` (analysis_service.py lines 26-31). -/
structure «밴드요약» where
  horizon_label : String
  upper : ℚ
  lower : ℚ
  center : ℚ
  deriving DecidableEq, Repr

/-- `_예측밴드_요약` (analysis_service.py lines 211-223): wraps the
`get_forecast_band` call in `try/except`; any exception (or an empty
band) becomes `None`.  The argument is the outcome of the inner call. -/
def «_예측밴드_요약» (forecastOutcome : Except PyErr (List ForecastPoint)) :
    Option «밴드요약» :=
  match forecastOutcome with
  | .error _ => Option.none
  | .ok [] => Option.none
  | .ok (p :: rest) =>
    some ⟨"3개월 ARIMA",
      rest.foldl (fun a q => max a q.upper) p.upper,
      rest.foldl (fun a q => min a q.lower) p.lower,
      (rest.getLastD p).mean⟩

/-- The dictionary `_내러티브_작성` returns (analysis_service.py lines
270-275). -/
structure RuleNarrative where
  summary : String
  risk_label : String
  quick_notes : List String
  actions : List String
  deriving DecidableEq, Repr

/-- `_내러티브_작성` (analysis_service.py lines 226-275): the rule-based
Korean commentary. -/
def «_내러티브_작성» (ind : «지표스냅샷») (band : Option «밴드요약») : RuleNarrative :=
  let ma_gap_pct := if ind.sma60 ≠ 0 then (ind.sma20 / ind.sma60 - 1) * 100 else 0
  let trend_bias := if ma_gap_pct > 1 then "우상향"
    else if -1 ≤ ma_gap_pct ∧ ma_gap_pct ≤ 1 then "중립" else "하락 반전"
  let macd_state := if ind.macd_hist > 0 ∧ ind.macd_line > ind.macd_signal
    then "상승 전환" else "하락 전환"
  let rsi_state := if ind.rsi14 ≥ 70 then "과매수"
    else if ind.rsi14 > 35 then "중립" else "과매도"
  let vol_state := if ind.volume_ratio_pct > 40 then "거래량 급증"
    else if ind.volume_ratio_pct > 10 then "유입"
    else if ind.volume_ratio_pct > -15 then "평균" else "유출"
  let risk_label := if ind.hv20_pct > 45 ∨ ind.mdd_pct < -25 then "높음"
    else if ind.hv20_pct > 25 then "중간" else "낮음"
  let band_span_pct : Option ℚ := match band with
    | some b => if b.center ≠ 0 then some ((b.upper - b.lower) / b.center * 100) else Option.none
    | Option.none => Option.none
  let band_phrase := match band, band_span_pct with
    | some b, some sp =>
      b.horizon_label ++ " 밴드 폭 " ++ pyFormatFixed false false 1 sp ++ "% ("
        ++ pyFormatFixed false true 0 b.lower ++ "~" ++ pyFormatFixed false true 0 b.upper ++ ")"
    | _, _ => "예측 밴드 정보 없음"
  let trend_sentence := "20일선 대비 60일선 " ++ pyFormatFixed true false 1 ma_gap_pct
    ++ "% → 추세 " ++ trend_bias
  let momentum_sentence := "최근 20일 모멘텀 " ++ pyFormatFixed true false 1 ind.momentum20_pct
    ++ "%·MACD " ++ macd_state ++ "·RSI " ++ pyFormatFixed false false 0 ind.rsi14
    ++ "(" ++ rsi_state ++ ")"
  let volatility_sentence := "연율화 변동성 " ++ pyFormatFixed false false 1 ind.hv20_pct
    ++ "% (리스크 " ++ risk_label ++ ") · 최대낙폭 " ++ pyFormatFixed false false 1 ind.mdd_pct ++ "%"
  let volume_sentence := "거래량 " ++ vol_state ++ "(" ++ pyFormatFixed true false 0 ind.volume_ratio_pct
    ++ "% vs 20일 평균), 투자심리도 " ++ pyFormatFixed false false 0 ind.psy10_pct ++ "%"
  let summary := String.intercalate " | "
    [trend_sentence, momentum_sentence, volatility_sentence, volume_sentence, band_phrase]
  let quick_notes := [
    "볼린저 상단 " ++ pyFormatFixed false true 0 ind.boll_upper ++ " / 하단 "
      ++ pyFormatFixed false true 0 ind.boll_lower ++ " 인근 반응을 확인하세요.",
    "HV20 " ++ pyFormatFixed false false 1 ind.hv20_pct ++ "%·ATR14 "
      ++ pyFormatFixed false true 0 ind.atr14 ++ " 수준에서 손익비를 재점검",
    "거래량 흐름: " ++ vol_state ++ ", 심리 " ++ pyFormatFixed false false 0 ind.psy10_pct
      ++ "% → " ++ (if ind.psy10_pct > 60 then "관심 매수" else "관망"),
    "RSI " ++ pyFormatFixed false false 0 ind.rsi14 ++ "·MACD " ++ macd_state ++ " 조합으로 모멘텀 체크"]
  let «상승_actions» := [
    "1) 추세 우상향 시 눌림 구간을 분할매수하고 상단 밴드 접근 시 익절 구간을 나눕니다.",
    "2) 거래량 급증 구간에서 돌파/가속 여부를 확인해 추가 비중 조절을 검토합니다.",
    "3) 밴드 하단 근접 시 손절·헤지 조건을 사전에 명시하세요."]
  let «하락_actions» := [
    "1) 주요 이동평균 이탈 시 반등 구간에서 비중 축소를 우선 고려합니다.",
    "2) RSI 과매도 해소 전까지 추격 매수를 자제하고 단계적 진입을 설계하세요.",
    "3) 밴드 하단·최근 저점 부근에서는 손절선을 짧게 설정합니다."]
  let actions := if trend_bias = "우상향" then «상승_actions» else «하락_actions»
  ⟨summary, risk_label, quick_notes, actions⟩

/-- `_알림_리스트` (analysis_service.py lines 278-316): up to five
monitoring alerts, generated in priority order and truncated. -/
def «_알림_리스트» (ind : «지표스냅샷») (band : Option «밴드요약») : List String :=
  let bandAlerts := match band with
    | Option.none => []
    | some b =>
      let mid := b.center
      let upper_gap := if ind.close ≠ 0 then (b.upper / ind.close - 1) * 100 else 0
      let lower_gap := if b.lower ≠ 0 then (ind.close / b.lower - 1) * 100 else 0
      let band_span_pct := if mid ≠ 0 then (b.upper - b.lower) / mid * 100 else 0
      (if upper_gap < 6 then
        ["가격이 상단 밴드까지 " ++ pyFormatFixed false false 1 upper_gap
          ++ "% 남았습니다. 돌파 시 추세 가속을 점검하세요."] else [])
      ++ (if lower_gap < 6 then
        ["하단 밴드 이탈 시 " ++ pyFormatFixed false false 1 lower_gap
          ++ "% 내외 손실 구간입니다. 손절·헤지 조건을 미리 명시하세요."] else [])
      ++ ["예측 밴드 폭 " ++ pyFormatFixed false false 1 band_span_pct
          ++ "% → 변동성 대비 포지션 사이징을 보수적으로 잡으세요."]
  let momentumAlerts :=
    if ind.momentum20_pct > 5 then
      ["20일 모멘텀 +5% 이상으로 단기 상승 탄력이 있습니다. 수익 실현 구간을 단계별로 설정하세요."]
    else if ind.momentum20_pct < -5 then
      ["단기 모멘텀이 음(-)전환되어 저점 재확인 가능성. 반등 시 손절·축소 기준을 점검하세요."]
    else []
  let hvAlerts := if ind.hv20_pct > 45 then
      ["극단적 변동성 구간입니다. 손익비 1:2 이상 확보 후 진입을 권고합니다."] else []
  let macdAlerts :=
    if ind.macd_hist > 0 ∧ ind.macd_line > ind.macd_signal then
      ["MACD 상향 전환으로 추세 우위. 단기 과열 여부를 RSI와 함께 확인하세요."]
    else if ind.macd_hist < 0 ∧ ind.macd_line < ind.macd_signal then
      ["MACD 하향 전환으로 조정 가능성. 반등 신호(시그널 상향)를 기다리세요."]
    else []
  let rsiAlerts :=
    if ind.rsi14 ≥ 70 then
      ["RSI 70 이상으로 과매수 구간입니다. 분할 매도/헤지 전략을 고려하세요."]
    else if ind.rsi14 ≤ 30 then
      ["RSI 30 이하로 과매도 신호. 반등 시 분할 매수 타이밍을 탐색하세요."]
    else []
  let volumeAlerts := if ind.volume_ratio_pct > 40 then
      ["거래량이 20일 평균 대비 크게 증가했습니다. 추세 가속 또는 뉴스 트리거를 확인하세요."] else []
  let vkospiAlerts :=
    if ind.vkospi_level.getD 0 ≠ 0 ∧ ind.vkospi_change_pct.getD 0 ≠ 0
        ∧ ind.vkospi_change_pct.getD 0 > 5 then
      ["VKOSPI " ++ pyFormatFixed false false 1 (ind.vkospi_level.getD 0) ++ " (▲"
        ++ pyFormatFixed false false 1 (ind.vkospi_change_pct.getD 0)
        ++ "%) 변동성 경보 — 포지션 축소·헤지를 검토하세요."]
    else []
  (bandAlerts ++ momentumAlerts ++ hvAlerts ++ macdAlerts ++ rsiAlerts
    ++ volumeAlerts ++ vkospiAlerts).take 5

/-! ## `llm_service.py` -/

/-- Process-start configuration of the LLM path (`OPENAI_*` environment
variables, llm_service.py lines 66-69); `apiKey = none` models an unset
`OPENAI_API_KEY` (an empty string is falsy too). -/
structure LlmEnv where
  apiKey : Option String
  model : String
  baseUrl : String
  temperature : ℚ

/-- Outcome of a completed `_http_post` (llm_service.py lines 72-103):
the status code and the response body text. -/
structure HttpResponse where
  status : ℤ
  content : String

/-- Python `format(v, ".1f")` applied to an arbitrary value: numbers
format, bools are ints, everything else raises (this is how
`_프롬프트_작성` can raise on a malformed band dict). -/
def pyFormatValDot1f : PyVal → Except PyErr String
  | .num q => .ok (pyFormatFixed false false 1 q)
  | .bool b => .ok (pyFormatFixed false false 1 (if b then 1 else 0))
  | .none => .error (.typeError "unsupported format string passed to NoneType.__format__")
  | .str _ => .error (.valueError "Unknown format code f for object of type str")
  | .list _ => .error (.typeError "unsupported format string passed to list.__format__")
  | .dict _ => .error (.typeError "unsupported format string passed to dict.__format__")

/-- `_프롬프트_작성` (llm_service.py lines 106-167).  Note this runs
before the `try` block of the caller, so an exception here propagates. -/
def «_프롬프트_작성» (indicators : List (String × PyVal))
    (band : Option (List (String × PyVal)))
    (rule_narrative : Option (List (String × PyVal)))
    (rule_alerts : Option (List String))
    (signal_texts : Option (List (String × PyVal))) : Except PyErr String := do
  let band_text ← match band with
    | Option.none => Except.ok "없음"
    | some b =>
      if b.isEmpty then Except.ok "없음"
      else do
        let u ← pyFormatValDot1f (dictGet b "upper")
        let l ← pyFormatValDot1f (dictGet b "lower")
        let c ← pyFormatValDot1f (dictGet b "center")
        Except.ok (pyStr (dictGetD b "horizon_label" (.str "밴드"))
          ++ " | 상단 " ++ u ++ " · 하단 " ++ l ++ " · 중심 " ++ c)
  let rule_summary := pyOr
    (match rule_narrative with | some rn => dictGet rn "summary" | Option.none => .none)
    (.str "")
  let rule_notes := pyOr
    (match rule_narrative with | some rn => dictGet rn "quick_notes" | Option.none => .none)
    (.list [])
  let rule_actions := pyOr
    (match rule_narrative with | some rn => dictGet rn "actions" | Option.none => .none)
    (.list [])
  let rule_alert_texts := rule_alerts.getD []
  let st := signal_texts.getD []
  Except.ok ("\n당신은 한국어를 사용하는 퀀트 리서치 애널리스트입니다.\n"
    ++ "입력으로 제공된 주식 지표와 예측 밴드를 바탕으로, 화면에 바로 노출될 자연스러운\n"
    ++ "JSON 브리핑을 작성하세요. 기존 규칙 기반 문장들을 더 읽기 쉽게 다듬되, 지표 수치와\n"
    ++ "리스크 맥락을 그대로 반영해야 합니다.\n\n"
    ++ "요구사항:\n"
    ++ "- summary: 추세/모멘텀/변동성/거래량/밴드를 한 문장으로 연결 (UI 상단 브리핑에 표시)\n"
    ++ "- quick_notes: 핵심 인사이트 3~4개. 짧은 문장, 불릿으로 바로 노출\n"
    ++ "- actions: 매매 액션 가이드 3개. 번호 목록 형태로 바로 표시됨\n"
    ++ "- alerts: 모니터링 포인트 3~5개. 경고 문장 형태\n"
    ++ "- tone: 한국어, 전문적이되 간결하게, 숫자는 단위 없이 표현\n"
    ++ "- 반환 형식: 아래 JSON 스키마를 준수하고, 문자열 외 불필요한 설명은 넣지 않음\n\n"
    ++ "지표 데이터(JSON):\n" ++ pyJsonDumps (.dict indicators)
    ++ "\n\n예측 밴드 요약:\n" ++ band_text
    ++ "\n\n계산된 신호 문장(참고용, 자연스럽게 재작성):\n"
    ++ "trend: " ++ pyStr (dictGet st "trend_sentence")
    ++ "\nmomentum: " ++ pyStr (dictGet st "momentum_sentence")
    ++ "\nvolatility: " ++ pyStr (dictGet st "volatility_sentence")
    ++ "\nvolume/sentiment: " ++ pyStr (dictGet st "volume_sentence")
    ++ "\nband: " ++ pyStr (dictGet st "band_phrase")
    ++ "\n\n신뢰도·심리 메모:\n"
    ++ "confidence_reason: " ++ pyStr (dictGet indicators "confidence_reason")
    ++ "\nsentiment_note: " ++ pyStr (dictGet indicators "sentiment_note")
    ++ "\n\n기존 규칙 기반 요약(참고용, 더 자연스럽게 재작성):\n"
    ++ "summary: " ++ pyStr rule_summary
    ++ "\nquick_notes: " ++ pyStr rule_notes
    ++ "\nactions: " ++ pyStr rule_actions
    ++ "\nalerts: " ++ pyStr (.list (rule_alert_texts.map PyVal.str))
    ++ "\n\nJSON 스키마 예시:\n\x7b\n"
    ++ "  \"summary\": \"리스크·밴드 브리핑 한 문장\",\n"
    ++ "  \"quick_notes\": [\"핵심 인사이트 1\", \"2\", \"3\"],\n"
    ++ "  \"actions\": [\"액션 가이드 1\", \"2\", \"3\"],\n"
    ++ "  \"alerts\": [\"알림 1\", \"알림 2\", \"알림 3\"]\n\x7d\n")

/-- Python `v[k]` for a string key. -/
def pySubscriptKey (v : PyVal) (k : String) : Except PyErr PyVal :=
  match v with
  | .dict kvs =>
    match kvs.find? (fun p => p.1 == k) with
    | some p => .ok p.2
    | Option.none => .error (.keyError k)
  | _ => .error (.typeError ("value is not subscriptable by key " ++ k))

/-- Python `v[i]` for an integer index. -/
def pySubscriptIdx (v : PyVal) (i : ℕ) : Except PyErr PyVal :=
  match v with
  | .list xs =>
    match xs.get? i with
    | some x => .ok x
    | Option.none => .error (.indexError "list index out of range")
  | .dict _ => .error (.keyError (toString i))
  | _ => .error (.typeError "value is not subscriptable by index")

/-- Python `v.get(k, default)`: raises `AttributeError` on non-dicts. -/
def pyGetMethod (v : PyVal) (k : String) (dflt : PyVal) : Except PyErr PyVal :=
  match v with
  | .dict kvs => .ok (dictGetD kvs k dflt)
  | _ => .error (.attributeError "object has no attribute get")

/-- The body of the `try` block of `llm_브리핑_생성` (llm_service.py
lines 206-222): the HTTP response handling, JSON navigation and success
dictionary; every exception it raises is caught by the caller. -/
def llm_try_body (env : LlmEnv) (json_loads : String → Except PyErr PyVal)
    (resp : HttpResponse) (latency_ms : ℚ) (metadata : List (String × PyVal)) :
    Except PyErr (List (String × PyVal)) := do
  if 400 ≤ resp.status then
    throw (.runtimeError ("HTTP " ++ toString resp.status ++ ": " ++ resp.content))
  let data ← json_loads resp.content
  let choices ← pySubscriptKey data "choices"
  let c0 ← pySubscriptIdx choices 0
  let message ← pySubscriptKey c0 "message"
  let content ← pySubscriptKey message "content"
  let contentStr ← match content with
    | .str s => Except.ok s
    | _ => Except.error (.typeError "the JSON object must be str, bytes or bytearray")
  let parsed ← json_loads contentStr
  let summary ← pyGetMethod parsed "summary" .none
  let quick_notes ← pyGetMethod parsed "quick_notes" .none
  let actions ← pyGetMethod parsed "actions" .none
  let alerts ← pyGetMethod parsed "alerts" .none
  let modelV ← pyGetMethod data "model" (.str env.model)
  pure ([("summary", summary), ("quick_notes", quick_notes),
         ("actions", actions), ("alerts", alerts), ("model", modelV),
         ("latency_ms", .num latency_ms)] ++ metadata)

/-- `llm_브리핑_생성` (llm_service.py lines 170-226).  External effects
passed in: `json_loads` (modelled from the spec: Python's JSON decoder;
`.error` = malformed JSON raising `JSONDecodeError`), `httpOutcome`
(the `_http_post` call: `.error` = a network exception raised inside the
`try` block), and the measured `latency_ms`.  The `raise_for_status`
message truncates/`repr`s the body in Python; plain concatenation here
(the message text is never compared). -/
def «llm_브리핑_생성» (env : LlmEnv) (json_loads : String → Except PyErr PyVal)
    (indicators : List (String × PyVal)) (band : Option (List (String × PyVal)))
    (rule_narrative : Option (List (String × PyVal)))
    (rule_alerts : Option (List String))
    (signal_texts : Option (List (String × PyVal)))
    (httpOutcome : Except PyErr HttpResponse) (latency_ms : ℚ) :
    Except PyErr (List (String × PyVal)) :=
  let metadata : List (String × PyVal) :=
    [("attempted", .bool false), ("error", .none), ("http_status", .none)]
  if env.apiKey.getD "" = "" then
    .ok (dictSet metadata "error" (.str "OPENAI_API_KEY missing"))
  else
    match «_프롬프트_작성» indicators band rule_narrative rule_alerts signal_texts with
    | .error e => .error e
    | .ok _prompt =>
      let metadata := dictSet metadata "attempted" (.bool true)
      match httpOutcome with
      | .error e => .ok (dictSet metadata "error" (.str e.toMessage))
      | .ok resp =>
        let metadata := dictSet metadata "http_status" (.num resp.status)
        match llm_try_body env json_loads resp latency_ms metadata with
        | .ok d => .ok d
        | .error e => .ok (dictSet metadata "error" (.str e.toMessage))

/-! ## `analysis_service.py` — the insight build -/

/-- Python `None`-or-float field as a payload value. -/
def optNum : Option ℚ → PyVal
  | some q => .num q
  | Option.none => .none

/-- Python `band.__dict__` of a `밴드요약`. -/
def «밴드요약_asdict» (b : «밴드요약») : List (String × PyVal) :=
  [("horizon_label", .str b.horizon_label), ("upper", .num b.upper),
   ("lower", .num b.lower), ("center", .num b.center)]

/-- The rule-narrative dictionary as a Python value. -/
def RuleNarrative.toDict (rn : RuleNarrative) : List (String × PyVal) :=
  [("summary", .str rn.summary), ("risk_label", .str rn.risk_label),
   ("quick_notes", .list (rn.quick_notes.map PyVal.str)),
   ("actions", .list (rn.actions.map PyVal.str))]

/-- The payload `결정인사이트_생성` returns (analysis_service.py lines
400-457).  The `indicators` sub-dict repeats snapshot fields and is
represented by the snapshot itself; the `oscillators`/`sentiment`
sub-dicts repeat numeric fields of the snapshot, so only their derived
string fields are kept.  `summary`/`quick_notes`/`actions`/`alerts` are
`PyVal` because on the LLM path they are whatever the parsed JSON held. -/
structure Insight where
  symbol : String
  last_price : ℚ
  change_rate : ℚ
  volatility_score : ℤ
  volatility_label : String
  confidence : ℤ
  confidence_label : String
  confidence_reason : String
  risk_label : String
  narrative_source : String
  llm_model : PyVal
  llm_latency_ms : PyVal
  band : Option «밴드요약»
  summary : PyVal
  quick_notes : PyVal
  actions : PyVal
  alerts : PyVal
  indicators : «지표스냅샷»
  osc_macd_state : String
  osc_rsi_zone : String
  fear_greed : String
  sentiment_note : String
  deriving Repr

/-- `결정인사이트_생성` (analysis_service.py lines 319-460), from the
computed snapshot onward (the yfinance fetch and `_기술지표_계산` are
upstream; an empty history raises before this logic runs).  External
inputs: the forecast-band call outcome (consumed by `_예측밴드_요약`),
the liquidity bonus (`_유동성보너스_계산` is log10-based, value in
`[0, 8]`), and the LLM-call effects.  `sentiment_note` formats
`ind.vkospi_change_pct` with `:+.1f` whenever `ind.vkospi_level` is
truthy, so a snapshot with a level but no change raises — `_vkospi_조회`
only produces both-or-neither. -/
def «결정인사이트_생성» (symbol : String) (ind : «지표스냅샷»)
    (forecastOutcome : Except PyErr (List ForecastPoint)) (liquidity_bonus : ℚ)
    (env : LlmEnv) (json_loads : String → Except PyErr PyVal)
    (httpOutcome : Except PyErr HttpResponse) (latency_ms : ℚ) :
    Except PyErr Insight :=
  let trend_score := «trend_score_계산» ind
  let momentum_score := «momentum_score_계산» ind
  let volatility_score := «_변동성점수_계산» ind.hv20_pct
  let band := «_예측밴드_요약» forecastOutcome
  let band_range_pct := match band with
    | some b => if b.center ≠ 0 then (b.upper - b.lower) / b.center else 0
    | Option.none => 0
  let confidence := «_신뢰도점수_계산» trend_score momentum_score volatility_score
    band_range_pct liquidity_bonus
  let volatility_label := if volatility_score < 35 then "낮음"
    else if volatility_score < 70 then "중간" else "높음"
  let confidence_label := if confidence ≥ 70 then "높음"
    else if confidence ≥ 45 then "보통" else "낮음"
  let confidence_reason := String.intercalate " | " [
    "추세 " ++ toString trend_score ++ " · 모멘텀 " ++ pyFloatStr momentum_score,
    "변동성 " ++ toString volatility_score ++ " · 밴드 폭 "
      ++ pyFormatFixed false false 1 (band_range_pct * 100) ++ "%",
    "유동성 보너스 +" ++ pyFormatFixed false false 1 liquidity_bonus ++ " (20일 평균 거래량)",
    "MACD " ++ (if ind.macd_hist > 0 then "상향" else "하향") ++ " · RSI "
      ++ pyFormatFixed false false 0 ind.rsi14]
  let fear_greed := if ind.psy10_pct ≥ 70 ∧ ind.hv20_pct < 40 then "탐욕"
    else if ind.psy10_pct ≤ 35 then "공포" else "중립"
  let sentimentTail : Except PyErr String :=
    if ind.vkospi_level.getD 0 ≠ 0 then
      match ind.vkospi_change_pct with
      | some ch => .ok ("VKOSPI " ++ pyFormatFixed false false 1 (ind.vkospi_level.getD 0)
          ++ " (변동성 " ++ pyFormatFixed true false 1 ch ++ "%)")
      | Option.none =>
        .error (.typeError "unsupported format string passed to NoneType.__format__")
    else .ok "VKOSPI 데이터 없음"
  match sentimentTail with
  | .error e => .error e
  | .ok tail =>
    let sentiment_note := "투자심리도 " ++ pyFormatFixed false false 0 ind.psy10_pct
      ++ "% → " ++ fear_greed ++ " 구간. " ++ tail
    let rule_narrative := «_내러티브_작성» ind band
    let rule_alerts := «_알림_리스트» ind band
    let llm_payload : List (String × PyVal) := [
      ("close", .num ind.close), ("change_rate", .num ind.change_rate),
      ("sma20", .num ind.sma20), ("sma60", .num ind.sma60),
      ("momentum20_pct", .num ind.momentum20_pct), ("hv20_pct", .num ind.hv20_pct),
      ("atr14", .num ind.atr14), ("mdd_pct", .num ind.mdd_pct),
      ("boll_upper", .num ind.boll_upper), ("boll_lower", .num ind.boll_lower),
      ("macd_line", .num ind.macd_line), ("macd_signal", .num ind.macd_signal),
      ("macd_hist", .num ind.macd_hist), ("rsi14", .num ind.rsi14),
      ("volume_last", .num ind.volume_last), ("volume_avg20", .num ind.volume_avg20),
      ("volume_ratio_pct", .num ind.volume_ratio_pct), ("psy10_pct", .num ind.psy10_pct),
      ("vkospi_level", optNum ind.vkospi_level),
      ("vkospi_change_pct", optNum ind.vkospi_change_pct),
      ("trend_score", .num trend_score), ("momentum_score", .num momentum_score),
      ("volatility_score", .num volatility_score),
      ("volatility_label", .str volatility_label),
      ("band_range_pct", .num band_range_pct), ("confidence", .num confidence),
      ("confidence_label", .str confidence_label), ("fear_greed", .str fear_greed)]
    match «llm_브리핑_생성» env json_loads llm_payload (band.map «밴드요약_asdict»)
        (some rule_narrative.toDict) (some rule_alerts) Option.none
        httpOutcome latency_ms with
    | .error e => .error e
    | .ok llm_brief =>
      let useLlm := pyTruthy (.dict llm_brief)
      let narrative_source := if useLlm then "openai" else "rule"
      let summary := if useLlm
        then pyOr (dictGet llm_brief "summary") (.str rule_narrative.summary)
        else .str rule_narrative.summary
      let quick_notes := if useLlm
        then pyOr (dictGet llm_brief "quick_notes")
          (.list (rule_narrative.quick_notes.map PyVal.str))
        else .list (rule_narrative.quick_notes.map PyVal.str)
      let actions := if useLlm
        then pyOr (dictGet llm_brief "actions")
          (.list (rule_narrative.actions.map PyVal.str))
        else .list (rule_narrative.actions.map PyVal.str)
      let alerts := if useLlm
        then pyOr (dictGet llm_brief "alerts") (.list (rule_alerts.map PyVal.str))
        else .list (rule_alerts.map PyVal.str)
      let llm_model := if useLlm then dictGet llm_brief "model" else PyVal.none
      let llm_latency := if useLlm then dictGet llm_brief "latency_ms" else PyVal.none
      .ok ⟨symbol, ind.close, ind.change_rate, volatility_score, volatility_label,
        confidence, confidence_label, confidence_reason, rule_narrative.risk_label,
        narrative_source, llm_model, llm_latency, band, summary, quick_notes,
        actions, alerts, ind,
        (if ind.macd_hist > 0 then "상향" else "하향"),
        (if ind.rsi14 ≥ 70 then "과매수" else if ind.rsi14 > 35 then "중립" else "과매도"),
        fear_greed, sentiment_note⟩

/-! ## `scripts/eval_forecast_band.py` -/

/-- One row of the walk-forward evaluation DataFrame
(eval_forecast_band.py lines 106-119); dates are positions in the close
series. -/
structure EvalRecord where
  train_end : ℕ
  forecast_date : ℕ
  actual : ℚ
  mean : ℚ
  lower : ℚ
  upper : ℚ
  inside_band : Bool
  abs_error : ℚ
  sq_error : ℚ
  ape : ℚ
  deriving DecidableEq, Repr

/-- What the script computes (it prints coverage/rmse/mape and returns
the DataFrame); `mse` is the squared rmse (the root is irrational over
`ℚ` and no claim reads it). -/
structure BandEvalResult where
  records : List EvalRecord
  coverage : ℚ
  mse : ℚ
  mape : ℚ
  deriving DecidableEq, Repr

/-- The body of the walk-forward loop (eval_forecast_band.py lines
50-119) for the test date at position `i` of the close series.  `oracle`
is modelled from the spec: the external ARIMA refit on `close[:i+1]` and
its 1-step parametric forecast `(predicted mean, interval lower, interval
upper)` at the requested confidence. -/
def evalBandStep (close : List ℚ) (oracle : ℕ → ℚ × ℚ × ℚ)
    (arima_order : ℕ × ℕ × ℕ) (scale_factor : ℚ) (i : ℕ) : Option EvalRecord :=
  if i + 1 < arima_order.1 + arima_order.2.1 + arima_order.2.2 + 5 then Option.none
  else
    let m := (oracle i).1
    let lower0 := (oracle i).2.1
    let upper0 := (oracle i).2.2
    let lower := if scale_factor ≠ 1 then m - (m - lower0) * scale_factor else lower0
    let upper := if scale_factor ≠ 1 then m + (upper0 - m) * scale_factor else upper0
    if i + 1 ≥ close.length then Option.none
    else
      let actual := close.getD (i + 1) 0
      some ⟨i, i + 1, actual, m, lower, upper,
        decide (lower ≤ actual ∧ actual ≤ upper),
        |actual - m|, (actual - m) ^ 2, |actual - m| / actual * 100⟩

/-- Model of `pandas.Series.quantile` (linear interpolation between order
statistics). -/
def pandasQuantile (xs : List ℚ) (q : ℚ) : ℚ :=
  let sorted := List.insertionSort (· ≤ ·) xs
  let n := sorted.length
  if n = 0 then 0
  else
    let pos := q * ((n : ℚ) - 1)
    let i := (⌊pos⌋).toNat
    let frac := pos - ⌊pos⌋
    let a := sorted.getD i 0
    let b := sorted.getD (min (i + 1) (n - 1)) 0
    a + (b - a) * frac

/-- Recompute a record against the empirical band (eval_forecast_band.py
lines 131-152). -/
def empiricalRecord (lower_q upper_q : ℚ) (r : EvalRecord) : EvalRecord :=
  let le := r.mean * (1 + lower_q)
  let ue := r.mean * (1 + upper_q)
  ⟨r.train_end, r.forecast_date, r.actual, r.mean, le, ue,
    decide (le ≤ r.actual ∧ r.actual ≤ ue), r.abs_error, r.sq_error, r.ape⟩

/-- `evaluate_forecast_band` (eval_forecast_band.py lines 13-167).  The
close series is the fetched, sorted, NaN-free close column (`use_log` is
accepted and unused, as in the source). -/
def evaluate_forecast_band (close : List ℚ) (test_days : ℕ) (conf : ℚ)
    (arima_order : ℕ × ℕ × ℕ) (scale_factor : ℚ) (_use_log : Bool)
    (use_empirical_band : Bool) (oracle : ℕ → ℚ × ℚ × ℚ) :
    Except PyErr BandEvalResult :=
  if close = [] then .error (.valueError "No historical data")
  else if close.length ≤ test_days + 30 then
    .error (.valueError "Data too short for evaluation")
  else
    let n := close.length
    let records := (List.range test_days).filterMap fun k =>
      evalBandStep close oracle arima_order scale_factor (n - test_days + k)
    if records = [] then .error (.valueError "No evaluation records generated")
    else
      let records := if use_empirical_band then
          let residuals_pct := records.map fun r => (r.actual - r.mean) / r.actual
          let alpha := 1 - conf
          let lower_q := pandasQuantile residuals_pct (alpha / 2)
          let upper_q := pandasQuantile residuals_pct (1 - alpha / 2)
          records.map (empiricalRecord lower_q upper_q)
        else records
      let cnt : ℚ := records.length
      let coverage := ((records.countP fun r => r.inside_band : ℕ) : ℚ) / cnt * 100
      let mse := (records.map fun r => r.sq_error).sum / cnt
      let mape := (records.map fun r => r.ape).sum / cnt
      .ok ⟨records, coverage, mse, mape⟩

/-- The record the walk-forward loop produces at step `i` when no
calibration is applied (helper for relating the script to the direct
parametric computation). -/
def directBandRecord (close : List ℚ) (oracle : ℕ → ℚ × ℚ × ℚ) (i : ℕ) : EvalRecord :=
  let m := (oracle i).1
  let lower := (oracle i).2.1
  let upper := (oracle i).2.2
  let actual := close.getD (i + 1) 0
  ⟨i, i + 1, actual, m, lower, upper, decide (lower ≤ actual ∧ actual ≤ upper),
    |actual - m|, (actual - m) ^ 2, |actual - m| / actual * 100⟩

/-- Written from the claim's words, for comparison with the script: the
fraction of held-out actuals falling within the model's parametric
confidence interval, over the steps the walk-forward loop evaluates
(enough training data, and a next trading day to compare against). -/
def direct_parametric_fraction (close : List ℚ) (test_days : ℕ)
    (arima_order : ℕ × ℕ × ℕ) (oracle : ℕ → ℚ × ℚ × ℚ) : ℚ :=
  let n := close.length
  let s5 := arima_order.1 + arima_order.2.1 + arima_order.2.2 + 5
  let steps := (List.range test_days).filter fun k =>
    decide (s5 ≤ n - test_days + k + 1 ∧ n - test_days + k + 1 < n)
  let inside := steps.countP fun k =>
    let i := n - test_days + k
    decide ((oracle i).2.1 ≤ close.getD (i + 1) 0
      ∧ close.getD (i + 1) 0 ≤ (oracle i).2.2)
  (inside : ℚ) / (steps.length : ℚ)

/-- Wellformedness of the band dictionary passed to the LLM helper,
under which `_프롬프트_작성` cannot raise: absent or empty (falsy), or
carrying numeric `upper`/`lower`/`center` — which is what the insight
build always passes (`밴드요약_asdict` or `None`). -/
def BandFormatOk : Option (List (String × PyVal)) → Prop
  | Option.none => True
  | some b => b = []
      ∨ ((∃ q, dictGet b "upper" = .num q) ∧ (∃ q, dictGet b "lower" = .num q)
          ∧ (∃ q, dictGet b "center" = .num q))

/-- A well-formed snapshot: the VKOSPI sentiment proxy is
both-or-neither, as `_vkospi_조회` produces (a truthy level implies the
change is present; otherwise `sentiment_note` would format `None`). -/
def WellFormedSnapshot (ind : «지표스냅샷») : Prop :=
  ind.vkospi_level.getD 0 ≠ 0 → ind.vkospi_change_pct ≠ Option.none

/-- A concrete well-formed snapshot used to instantiate theorems
(momentum20_pct = 1/2 exhibits the fractional momentum score). -/
def sampleSnapshot : «지표스냅샷» :=
  ⟨100, 0, 10, 9, 1/2, 20, 3, -10, 110, 90, 1, 2, -1, 50, 1000, 900, 5, 50,
    Option.none, Option.none⟩

/-! # Theorems -/

/-! ## Helper lemmas -/

theorem floor_le_pyRound (q : ℚ) : ⌊q⌋ ≤ pyRound q := by
  unfold pyRound; split_ifs <;> omega

theorem pyRound_le_floor_add_one (q : ℚ) : pyRound q ≤ ⌊q⌋ + 1 := by
  unfold pyRound; split_ifs <;> omega

theorem pyRound_mono {q r : ℚ} (h : q ≤ r) : pyRound q ≤ pyRound r := by
  rcases lt_or_le ⌊q⌋ ⌊r⌋ with hf | hf
  · calc pyRound q ≤ ⌊q⌋ + 1 := pyRound_le_floor_add_one q
      _ ≤ ⌊r⌋ := by omega
      _ ≤ pyRound r := floor_le_pyRound r
  · have hqr : ⌊q⌋ = ⌊r⌋ := le_antisymm (Int.floor_le_floor h) hf
    have hfr : q - ⌊q⌋ ≤ r - ⌊r⌋ := by
      rw [hqr]; exact sub_le_sub_right h _
    unfold pyRound
    rw [hqr] at *
    split_ifs <;> first
      | omega
      | (exfalso; linarith)

theorem pyRound_intCast (n : ℤ) : pyRound (n : ℚ) = n := by
  unfold pyRound
  rw [Int.floor_intCast, sub_self]
  norm_num

theorem le_rollFwdBDay (d : ℕ) : d ≤ rollFwdBDay d := by
  unfold rollFwdBDay; split <;> omega

theorem rollFwdBDay_isBDay (d : ℕ) : rollFwdBDay d % 7 < 5 := by
  unfold rollFwdBDay; split <;> omega

theorem rollFwdBDay_least (d u : ℕ) (hu : u % 7 < 5) (hdu : d ≤ u) :
    rollFwdBDay d ≤ u := by
  unfold rollFwdBDay; split <;> omega

theorem bdayList_ge (n : ℕ) : ∀ start, ∀ x ∈ bdayList start n, start ≤ x := by
  induction n with
  | zero => intro start x hx; simp [bdayList] at hx
  | succ n ih =>
    intro start x hx
    simp only [bdayList, List.mem_cons] at hx
    rcases hx with rfl | hx
    · exact le_rollFwdBDay start
    · have := ih (rollFwdBDay start + 1) x hx
      have := le_rollFwdBDay start
      omega

theorem bdayList_pairwise (n : ℕ) :
    ∀ start, List.Pairwise (· < ·) (bdayList start n) := by
  induction n with
  | zero => intro start; simp [bdayList]
  | succ n ih =>
    intro start
    simp only [bdayList, List.pairwise_cons]
    refine ⟨fun x hx => ?_, ih _⟩
    have := bdayList_ge n (rollFwdBDay start + 1) x hx
    omega

theorem bdayList_head (start n : ℕ) (hn : 0 < n) :
    (bdayList start n).head? = some (rollFwdBDay start) := by
  cases n with
  | zero => omega
  | succ n => rfl

/-! ## C6 -/

/-- C6: the forecaster rejects out-of-range parameters before any data
access — for every call with `horizon ≤ 0`, or `horizon` above the
126-business-day maximum window, or `conf` not strictly between 0 and 1,
it fails with an invalid-parameter `ValueError` whose message depends
only on the parameters; the history, the fit and the calendar are
irrelevant (universally quantified, absent from the conclusion). -/
theorem C6_invalid_params_rejected (symbol : String) (horizon : ℤ) (conf : ℚ)
    (h : horizon ≤ 0 ∨ 126 < horizon ∨ ¬ (0 < conf ∧ conf < 1)) :
    ∀ (hist : List (Option ℚ)) (arima_order : ℕ × ℕ × ℕ)
      (fit : Except PyErr ArimaFit) (lastDate : ℕ),
      get_forecast_band symbol horizon conf hist arima_order fit lastDate
        = .error (.valueError
            (if horizon ≤ 0 then "horizon must be a positive integer"
             else if 126 < horizon then
               "horizon exceeds supported window (max 126 business days, ~6 months)"
             else "conf must be between 0 and 1")) := by
  intro hist arima_order fit lastDate
  unfold get_forecast_band
  by_cases h0 : horizon ≤ 0
  · simp only [if_pos h0]
  · by_cases h1 : horizon > 21 * 6
    · simp only [if_neg h0, if_pos h1, if_pos (show (126 : ℤ) < horizon by omega)]
    · have h2 : ¬ (0 < conf ∧ conf < 1) := by
        rcases h with h | h | h
        · exact absurd h h0
        · exact absurd (show horizon > 21 * 6 by omega) h1
        · exact h
      simp only [if_neg h0, if_neg h1, if_pos h2,
        if_neg (show ¬ (126 : ℤ) < horizon by omega)]

/-- Witness for C6 at `horizon = 0`. -/
theorem C6_invalid_params_rejected_witness :
    get_forecast_band "TEST" 0 (9/10) [some 1] (1, 1, 1)
        (.error (.valueError "fit")) 0
      = .error (.valueError "horizon must be a positive integer") := by
  have h := C6_invalid_params_rejected "TEST" 0 (9/10) (Or.inl (by norm_num))
    [some 1] (1, 1, 1) (.error (.valueError "fit")) 0
  simpa using h

/-! ## C7 -/

/-- C7: a close series shorter than `sum(order) + 5` points makes the
forecaster fail with the insufficient-data `ValueError`, and an
evaluator call whose training split is shorter than `sum(order) + 5`
fails likewise — in both cases for every fit function (the model is
never fitted). -/
theorem C7_insufficient_data_both :
    (∀ (symbol : String) (horizon : ℤ) (conf : ℚ) (hist : List (Option ℚ))
       (arima_order : ℕ × ℕ × ℕ) (fit : Except PyErr ArimaFit) (lastDate : ℕ),
       0 < horizon → horizon ≤ 126 → 0 < conf → conf < 1 → hist ≠ [] →
       (hist.filterMap id).length
          < arima_order.1 + arima_order.2.1 + arima_order.2.2 + 5 →
       get_forecast_band symbol horizon conf hist arima_order fit lastDate
         = .error (.valueError ("Not enough data to fit ARIMA model for symbol="
            ++ symbol ++ " (got " ++ toString (hist.filterMap id).length
            ++ " points)")))
  ∧ (∀ (symbol : String) (holdout_days : ℤ) (hist : List (Option ℚ))
       (arima_order : ℕ × ℕ × ℕ) (fit : List ℚ → Except PyErr (List ℚ)),
       0 < holdout_days → holdout_days ≤ 126 → hist ≠ [] →
       holdout_days < ((hist.filterMap id).length : ℤ) →
       (hist.filterMap id).length - holdout_days.toNat
          < arima_order.1 + arima_order.2.1 + arima_order.2.2 + 5 →
       evaluate_forecast_accuracy symbol holdout_days hist arima_order fit
         = .error (.valueError ("Not enough training data to fit ARIMA model for symbol="
            ++ symbol ++ " (got "
            ++ toString ((hist.filterMap id).take
                ((hist.filterMap id).length - holdout_days.toNat)).length
            ++ " points)"))) := by
  constructor
  · intro symbol horizon conf hist arima_order fit lastDate
      hpos hmax hc0 hc1 hne hshort
    unfold get_forecast_band
    rw [if_neg (by omega), if_neg (by omega),
      if_neg (not_not_intro ⟨hc0, hc1⟩), if_neg hne, if_pos hshort]
  · intro symbol holdout_days hist arima_order fit hpos hmax hne hlong hshort
    unfold evaluate_forecast_accuracy
    rw [if_neg (by omega), if_neg (by omega), if_neg hne,
      if_neg (by omega), if_pos ?_]
    rw [List.length_take, min_eq_left (by omega)]
    exact hshort

/-- Witness for C7: a 2-point series for the forecaster and a 3-point
series with a 1-day holdout (2-point training split) for the evaluator,
both under order (1,1,1). -/
theorem C7_insufficient_data_both_witness :
    get_forecast_band "T" 5 (1/2) [some 1, some 2] (1, 1, 1)
        (.error (.valueError "fit")) 0
      = .error (.valueError ("Not enough data to fit ARIMA model for symbol="
          ++ "T" ++ " (got "
          ++ toString ((([some 1, some 2] : List (Option ℚ)).filterMap id).length)
          ++ " points)"))
    ∧ evaluate_forecast_accuracy "T" 1 [some 1, some 2, some 3] (1, 1, 1)
        (fun _ => .ok [])
      = .error (.valueError ("Not enough training data to fit ARIMA model for symbol="
          ++ "T" ++ " (got "
          ++ toString ((([some 1, some 2, some 3] : List (Option ℚ)).filterMap id).take
              ((([some 1, some 2, some 3] : List (Option ℚ)).filterMap id).length
                - (1 : ℤ).toNat)).length
          ++ " points)")) :=
  ⟨C7_insufficient_data_both.1 "T" 5 (1/2) [some 1, some 2] (1, 1, 1)
      (.error (.valueError "fit")) 0 (by norm_num) (by norm_num) (by norm_num)
      (by norm_num) (by simp) (by simp),
   C7_insufficient_data_both.2 "T" 1 [some 1, some 2, some 3] (1, 1, 1)
      (fun _ => .ok []) (by norm_num) (by norm_num) (by simp) (by simp) (by simp)⟩

/-! ## C2 -/

/-- C2 counterexample: with `holdout_days = 63`, a close series of
exactly 64 points does NOT succeed — it passes the
`len(series) > holdout_days` boundary check but then fails the
`len(train) ≥ sum(order)+5` check (the training split has 1 point), so
no `AccuracyReport` is returned, refuting the claim as stated. -/
theorem C2_counterexample :
    evaluate_forecast_accuracy "TEST" 63 (List.replicate 64 (some 1)) (1, 1, 1)
        (fun _ => .ok [])
      = .error (.valueError
          "Not enough training data to fit ARIMA model for symbol=TEST (got 1 points)") := by
  rfl

/-- C2 (amended): the admissibility boundary of the evaluator is
two-staged — a 63-point series with `holdout_days = 63` fails the
`len(series) > holdout_days` check with an insufficient-data error; a
64-point series passes that boundary check but still fails with an
insufficient-data error for its 1-point training split (for every
order); success needs `len(series) ≥ holdout_days + sum(order) + 5`,
e.g. 71 points under order (1,1,1). -/
theorem C2_holdout_boundary_amended :
    (∀ (symbol : String) (hist : List (Option ℚ)) (arima_order : ℕ × ℕ × ℕ)
       (fit : List ℚ → Except PyErr (List ℚ)),
       (hist.filterMap id).length = 63 →
       evaluate_forecast_accuracy symbol 63 hist arima_order fit
         = .error (.valueError ("Not enough data to evaluate accuracy: need more than "
            ++ toString (63 : ℤ) ++ " data points")))
  ∧ (∀ (symbol : String) (hist : List (Option ℚ)) (arima_order : ℕ × ℕ × ℕ)
       (fit : List ℚ → Except PyErr (List ℚ)),
       (hist.filterMap id).length = 64 →
       evaluate_forecast_accuracy symbol 63 hist arima_order fit
         = .error (.valueError ("Not enough training data to fit ARIMA model for symbol="
            ++ symbol ++ " (got " ++ toString (1 : ℕ) ++ " points)")))
  ∧ evaluate_forecast_accuracy "TEST" 63 (List.replicate 71 (some 1)) (1, 1, 1)
      (fun _ => .ok (List.replicate 63 1))
      = .ok ⟨"TEST", 63, 0, 0, 0, 63⟩ := by
  refine ⟨?_, ?_, ?_⟩
  · intro symbol hist arima_order fit hlen
    have hne : hist ≠ [] := by
      intro h; rw [h] at hlen; simp at hlen
    unfold evaluate_forecast_accuracy
    rw [if_neg (by norm_num), if_neg (by norm_num), if_neg hne,
      if_pos (by rw [hlen]; norm_num)]
  · intro symbol hist arima_order fit hlen
    have hne : hist ≠ [] := by
      intro h; rw [h] at hlen; simp at hlen
    have htake : ((hist.filterMap id).take
        ((hist.filterMap id).length - (63 : ℤ).toNat)).length = 1 := by
      rw [List.length_take, hlen]
      rfl
    unfold evaluate_forecast_accuracy
    rw [if_neg (by norm_num), if_neg (by norm_num), if_neg hne,
      if_neg (by rw [hlen]; norm_num), if_pos (by rw [htake]; omega), htake]
  · with_unfolding_all rfl

/-- Witness for C2 (amended) at concrete 63- and 64-point series. -/
theorem C2_holdout_boundary_amended_witness :
    evaluate_forecast_accuracy "W" 63 (List.replicate 63 (some 1)) (1, 1, 1)
        (fun _ => .ok [])
      = .error (.valueError ("Not enough data to evaluate accuracy: need more than "
          ++ toString (63 : ℤ) ++ " data points"))
    ∧ evaluate_forecast_accuracy "W" 63 (List.replicate 64 (some 1)) (2, 0, 1)
        (fun _ => .ok [])
      = .error (.valueError ("Not enough training data to fit ARIMA model for symbol="
          ++ "W" ++ " (got " ++ toString (1 : ℕ) ++ " points)")) :=
  ⟨C2_holdout_boundary_amended.1 "W" (List.replicate 63 (some 1)) (1, 1, 1)
      (fun _ => .ok []) (by simp),
   C2_holdout_boundary_amended.2.1 "W" (List.replicate 64 (some 1)) (2, 0, 1)
      (fun _ => .ok []) (by simp)⟩

/-! ## C3 -/

/-- C3 counterexample: at a snapshot with `momentum20_pct = 1/2` the
scoring step's `momentum_score` is `101/2`, which is not an integer —
the source clamps but never rounds it (analysis_service.py line 331),
refuting "each equal to an integer in [0,100]". -/
theorem C3_counterexample :
    («점수집합_계산» sampleSnapshot 0 0).momentum_score = 101 / 2
    ∧ ¬ ∃ n : ℤ, («점수집합_계산» sampleSnapshot 0 0).momentum_score = (n : ℚ) := by
  have hval : («점수집합_계산» sampleSnapshot 0 0).momentum_score = 101 / 2 := by
    with_unfolding_all rfl
  refine ⟨hval, ?_⟩
  rintro ⟨n, hn⟩
  rw [hval] at hn
  have h2 : (2 * n : ℚ) = 101 := by
    rw [← hn]; ring
  have h3 : (2 * n : ℤ) = 101 := by exact_mod_cast h2
  omega

/-- C3 (amended): every `ScoreSet` the scoring step produces has
`trend_score`, `volatility_score` and `confidence_score` integers in
[0,100], and `momentum_score = clamp(50 + momentum20_pct, 0, 100)` — a
rational (Python float) in [0,100] that is an integer only when
`momentum20_pct` is. -/
theorem C3_scores_bounded (ind : «지표스냅샷») (band_range_pct liquidity_bonus : ℚ) :
    (0 ≤ («점수집합_계산» ind band_range_pct liquidity_bonus).trend_score
      ∧ («점수집합_계산» ind band_range_pct liquidity_bonus).trend_score ≤ 100)
    ∧ (0 ≤ («점수집합_계산» ind band_range_pct liquidity_bonus).momentum_score
      ∧ («점수집합_계산» ind band_range_pct liquidity_bonus).momentum_score ≤ 100)
    ∧ («점수집합_계산» ind band_range_pct liquidity_bonus).momentum_score
        = min 100 (max 0 (50 + ind.momentum20_pct))
    ∧ (0 ≤ («점수집합_계산» ind band_range_pct liquidity_bonus).volatility_score
      ∧ («점수집합_계산» ind band_range_pct liquidity_bonus).volatility_score ≤ 100)
    ∧ (0 ≤ («점수집합_계산» ind band_range_pct liquidity_bonus).confidence_score
      ∧ («점수집합_계산» ind band_range_pct liquidity_bonus).confidence_score ≤ 100) := by
  unfold «점수집합_계산» «trend_score_계산» «momentum_score_계산»
    «_변동성점수_계산» «_신뢰도점수_계산»
  refine ⟨?_, ?_, rfl, ?_, ?_⟩
  · dsimp only
    split_ifs <;> omega
  · dsimp only
    constructor
    · exact le_min (by norm_num) (le_max_left 0 _)
    · exact min_le_left 100 _
  · dsimp only
    constructor
    · exact le_max_left 0 _
    · exact max_le (by norm_num) (min_le_left 100 _)
  · dsimp only
    constructor
    · exact le_max_left 0 _
    · exact max_le (by norm_num) (min_le_left 100 _)

/-! ## C4 -/

/-- Closed form of `np.interp` over the volatility anchor knots. -/
theorem vol_interp_closed (x : ℚ) : np_interp volKnots x =
    if x ≤ 5 then 10
    else if x ≤ 15 then 10 + (x - 5) * 2
    else if x ≤ 30 then 30 + (x - 15) * (5/3)
    else if x ≤ 45 then 55 + (x - 30) * 1
    else if x ≤ 60 then 70 + (x - 45) * (6/5)
    else if x ≤ 90 then 88 + (x - 60) * (2/5)
    else 100 := by
  simp only [volKnots, np_interp]
  split_ifs <;> ring_nf

/-- The interpolation over the volatility knots is monotone. -/
theorem vol_interp_mono {x y : ℚ} (h : x ≤ y) :
    np_interp volKnots x ≤ np_interp volKnots y := by
  rw [vol_interp_closed, vol_interp_closed]
  split_ifs <;> linarith

/-- C4 counterexample: at `hv20 = 0`, outside the anchor range, the
source returns `10` (the first anchor's score — `np.interp` endpoint
semantics), not the claimed clamp to the bound `0` (and not `100`):
the spec-faithful interpolation `volatility_interp_spec` gives `0`
there. -/
theorem C4_counterexample :
    «_변동성점수_계산» 0 = 10 ∧ volatility_interp_spec 0 = 0
    ∧ (10 : ℤ) ≠ 0 ∧ (10 : ℤ) ≠ 100 := by
  refine ⟨by with_unfolding_all rfl, by norm_num [volatility_interp_spec],
    by norm_num, by norm_num⟩

/-- C4 (amended): the volatility score is monotonically non-decreasing,
anchor-exact (`10` at `hv20 = 5`, `100` at `hv20 = 90`), agrees inside
the anchor range with the clamped banker's rounding of the spec's
piecewise-linear interpolation through the knots, and clamps inputs
outside the anchor range to the nearest anchor's SCORE (`10` below,
`100` above) rather than to the bounds 0/100. -/
theorem C4_volatility_score_amended :
    (∀ x y : ℚ, x ≤ y → «_변동성점수_계산» x ≤ «_변동성점수_계산» y)
    ∧ «_변동성점수_계산» 5 = 10 ∧ «_변동성점수_계산» 90 = 100
    ∧ (∀ x : ℚ, x ≤ 5 → «_변동성점수_계산» x = 10)
    ∧ (∀ x : ℚ, 90 ≤ x → «_변동성점수_계산» x = 100)
    ∧ (∀ x : ℚ, 5 ≤ x → x ≤ 90 →
        «_변동성점수_계산» x = max 0 (min 100 (pyRound (volatility_interp_spec x)))) := by
  have hanchor90 : «_변동성점수_계산» 90 = 100 := by with_unfolding_all rfl
  refine ⟨?_, by with_unfolding_all rfl, hanchor90, ?_, ?_, ?_⟩
  · intro x y h
    unfold «_변동성점수_계산»
    exact max_le_max le_rfl (min_le_min le_rfl (pyRound_mono (vol_interp_mono h)))
  · intro x hx
    unfold «_변동성점수_계산»
    rw [vol_interp_closed, if_pos hx]
    have h10 : pyRound (10 : ℚ) = 10 := by
      have h := pyRound_intCast 10
      norm_num at h
      exact h
    rw [h10]
    decide
  · intro x hx
    rcases eq_or_lt_of_le hx with heq | hlt
    · subst heq
      exact hanchor90
    · unfold «_변동성점수_계산»
      rw [vol_interp_closed, if_neg (by linarith), if_neg (by linarith),
        if_neg (by linarith), if_neg (by linarith), if_neg (by linarith),
        if_neg (by linarith)]
      have h100 : pyRound (100 : ℚ) = 100 := by
        have h := pyRound_intCast 100
        norm_num at h
        exact h
      rw [h100]
      decide
  · intro x h5 h90
    have hs : volatility_interp_spec x = np_interp volKnots x := by
      rw [vol_interp_closed]
      unfold volatility_interp_spec
      split_ifs <;> first
        | rfl
        | linarith
    unfold «_변동성점수_계산»
    rw [hs]

/-- Witness for C4 (amended) at concrete volatility inputs. -/
theorem C4_volatility_score_amended_witness :
    «_변동성점수_계산» 1 ≤ «_변동성점수_계산» 2
    ∧ «_변동성점수_계산» 3 = 10
    ∧ «_변동성점수_계산» 95 = 100
    ∧ «_변동성점수_계산» 30 = max 0 (min 100 (pyRound (volatility_interp_spec 30))) :=
  ⟨C4_volatility_score_amended.1 1 2 (by norm_num),
   C4_volatility_score_amended.2.2.2.1 3 (by norm_num),
   C4_volatility_score_amended.2.2.2.2.1 95 (by norm_num),
   C4_volatility_score_amended.2.2.2.2.2 30 (by norm_num) (by norm_num)⟩

/-! ## C5 -/

/-- The first components of a zip form a sublist of the first list. -/
theorem map_fst_zip_sublist {α β : Type} (l₁ : List α) (l₂ : List β) :
    ((l₁.zip l₂).map Prod.fst).Sublist l₁ := by
  induction l₁ generalizing l₂ with
  | nil => simp
  | cons a l ih =>
    cases l₂ with
    | nil => simp
    | cons b m => simpa using (ih m).cons₂ a

/-- C5: every successfully returned forecast band satisfies
`lower ≤ mean ≤ upper` at every point (the interval is `mean ± z·se`
with a nonnegative quantile and nonnegative standard errors), its
timestamps are strictly increasing, and the first timestamp is exactly
the least business day strictly after the last observed date. -/
theorem C5_band_points_invariant
    (symbol : String) (horizon : ℤ) (conf : ℚ) (hist : List (Option ℚ))
    (arima_order : ℕ × ℕ × ℕ) (res : ArimaFit) (lastDate : ℕ)
    (pts : List ForecastPoint)
    (hz : 0 ≤ res.z) (hse : ∀ p ∈ res.steps, 0 ≤ p.2)
    (hok : get_forecast_band symbol horizon conf hist arima_order (.ok res) lastDate
      = .ok pts) :
    (∀ pt ∈ pts, pt.lower ≤ pt.mean ∧ pt.mean ≤ pt.upper)
    ∧ List.Pairwise (· < ·) (pts.map ForecastPoint.time)
    ∧ (∀ pt0, pts.head? = some pt0 →
        pt0.time % 7 < 5 ∧ lastDate < pt0.time
        ∧ ∀ u : ℕ, u % 7 < 5 → lastDate < u → pt0.time ≤ u) := by
  unfold get_forecast_band at hok
  split_ifs at hok
  dsimp only at hok
  split_ifs at hok
  simp only [Except.ok.injEq] at hok
  subst hok
  refine ⟨?_, ?_, ?_⟩
  · intro pt hpt
    simp only [List.mem_map] at hpt
    obtain ⟨ts, hts, rfl⟩ := hpt
    have hmem := (List.of_mem_zip hts).2
    have hse2 := hse _ hmem
    have hzse : 0 ≤ res.z * ts.2.2 := mul_nonneg hz hse2
    exact ⟨by dsimp; linarith, by dsimp; linarith⟩
  · rw [List.map_map]
    exact (bdayList_pairwise horizon.toNat (lastDate + 1)).sublist
      (map_fst_zip_sublist _ _)
  · intro pt0 h0
    cases hbd : bdayList (lastDate + 1) horizon.toNat with
    | nil => rw [hbd] at h0; simp at h0
    | cons b bs =>
      cases hst : res.steps with
      | nil => rw [hbd, hst] at h0; simp at h0
      | cons s ss =>
        rw [hbd, hst] at h0
        simp only [List.zip_cons_cons, List.map_cons, List.head?_cons,
          Option.some.injEq] at h0
        have hb : b = rollFwdBDay (lastDate + 1) := by
          cases hn : horizon.toNat with
          | zero => rw [hn] at hbd; simp [bdayList] at hbd
          | succ n =>
            rw [hn] at hbd
            simp only [bdayList, List.cons.injEq] at hbd
            exact hbd.1.symm
        have htime : pt0.time = rollFwdBDay (lastDate + 1) := by
          rw [← h0, ← hb]
        rw [htime]
        refine ⟨rollFwdBDay_isBDay _, ?_, ?_⟩
        · have := le_rollFwdBDay (lastDate + 1)
          omega
        · intro u hu hlu
          exact rollFwdBDay_least (lastDate + 1) u hu (by omega)

/-- Witness for C5 on an 8-point series, horizon 2, a Monday last date
and a concrete fit. -/
theorem C5_band_points_invariant_witness :
    (∀ pt ∈ [(⟨1, 10, 8, 12⟩ : ForecastPoint), ⟨2, 11, 7, 15⟩],
      pt.lower ≤ pt.mean ∧ pt.mean ≤ pt.upper)
    ∧ List.Pairwise (· < ·)
        (([(⟨1, 10, 8, 12⟩ : ForecastPoint), ⟨2, 11, 7, 15⟩]).map ForecastPoint.time)
    ∧ (∀ pt0, ([(⟨1, 10, 8, 12⟩ : ForecastPoint), ⟨2, 11, 7, 15⟩]).head? = some pt0 →
        pt0.time % 7 < 5 ∧ 0 < pt0.time
        ∧ ∀ u : ℕ, u % 7 < 5 → 0 < u → pt0.time ≤ u) :=
  C5_band_points_invariant "T" 2 (1/2)
    [some 1, some 2, some 3, some 4, some 5, some 6, some 7, some 8] (1, 1, 1)
    ⟨[(10, 1), (11, 2)], 2⟩ 0 [⟨1, 10, 8, 12⟩, ⟨2, 11, 7, 15⟩]
    (by norm_num) (by decide) (by with_unfolding_all rfl)

/-! ## C8 -/

/-- At `scale_factor = 1` the calibration block is skipped and the loop
body emits exactly the uncalibrated parametric record. -/
theorem evalBandStep_scale1 (close : List ℚ) (oracle : ℕ → ℚ × ℚ × ℚ)
    (arima_order : ℕ × ℕ × ℕ) (i : ℕ) :
    evalBandStep close oracle arima_order 1 i
      = if arima_order.1 + arima_order.2.1 + arima_order.2.2 + 5 ≤ i + 1
          ∧ i + 1 < close.length
        then some (directBandRecord close oracle i) else Option.none := by
  unfold evalBandStep directBandRecord
  split_ifs <;> first | rfl | omega | simp_all

/-- A `filterMap` whose function is a guarded `some` is a `filter`
followed by a `map`. -/
theorem filterMap_guard_eq_map_filter {α β : Type} (l : List α)
    (p : α → Prop) [DecidablePred p] (g : α → β) :
    (l.filterMap fun a => if p a then some (g a) else Option.none)
      = (l.filter fun a => decide (p a)).map g := by
  induction l with
  | nil => rfl
  | cons a t ih =>
    by_cases h : p a <;> simp [List.filterMap_cons, List.filter_cons, h, ih]

/-- C8: with `scale_factor = 1.0` and the parametric band, the walk-forward
evaluator's coverage equals (as a percentage) the directly computed
fraction of held-out actuals falling inside the model's parametric
confidence interval, and every emitted record carries the oracle's
parametric band unchanged (the scale-factor-1.0 calibration is the
identity on the band). -/
theorem C8_scale1_coverage_roundtrip (close : List ℚ) (test_days : ℕ) (conf : ℚ)
    (arima_order : ℕ × ℕ × ℕ) (use_log : Bool) (oracle : ℕ → ℚ × ℚ × ℚ)
    (res : BandEvalResult)
    (hok : evaluate_forecast_band close test_days conf arima_order 1 use_log
      false oracle = .ok res) :
    res.coverage
      = 100 * direct_parametric_fraction close test_days arima_order oracle
    ∧ ∀ r ∈ res.records, r.lower = (oracle r.train_end).2.1
        ∧ r.upper = (oracle r.train_end).2.2 := by
  have hrec : (List.range test_days).filterMap
      (fun k => evalBandStep close oracle arima_order 1 (close.length - test_days + k))
      = ((List.range test_days).filter fun k =>
          decide (arima_order.1 + arima_order.2.1 + arima_order.2.2 + 5
              ≤ close.length - test_days + k + 1
            ∧ close.length - test_days + k + 1 < close.length)).map
          (fun k => directBandRecord close oracle (close.length - test_days + k)) := by
    rw [List.filterMap_congr
      (fun k _ => evalBandStep_scale1 close oracle arima_order (close.length - test_days + k))]
    exact filterMap_guard_eq_map_filter _ _ _
  unfold evaluate_forecast_band at hok
  split_ifs at hok
  dsimp only at hok
  split_ifs at hok
  all_goals try exact False.elim (by assumption)
  dsimp only at hok
  split_ifs at hok
  simp only [Except.ok.injEq] at hok
  subst hok
  constructor
  · show (_ : ℚ) / _ * 100 = _
    unfold direct_parametric_fraction
    dsimp only
    rw [hrec, List.countP_map, List.length_map]
    have hpred : ((fun r : EvalRecord => r.inside_band)
          ∘ fun k => directBandRecord close oracle (close.length - test_days + k))
        = (fun k => decide ((oracle (close.length - test_days + k)).2.1
            ≤ close.getD (close.length - test_days + k + 1) 0
          ∧ close.getD (close.length - test_days + k + 1) 0
            ≤ (oracle (close.length - test_days + k)).2.2)) := rfl
    rw [hpred]
    ring
  · dsimp only
    rw [hrec]
    intro r hr
    simp only [List.mem_map] at hr
    obtain ⟨k, hk, rfl⟩ := hr
    exact ⟨rfl, rfl⟩

/-- Witness for C8: a constant 33-point series, two test days (one
evaluable step), a constant oracle band `[0, 2]` around mean `1`. -/
theorem C8_scale1_coverage_roundtrip_witness :
    (⟨[⟨31, 32, 1, 1, 0, 2, true, 0, 0, 0⟩], 100, 0, 0⟩ : BandEvalResult).coverage
      = 100 * direct_parametric_fraction (List.replicate 33 1) 2 (0, 0, 0)
          (fun _ => (1, 0, 2))
    ∧ ∀ r ∈ (⟨[⟨31, 32, 1, 1, 0, 2, true, 0, 0, 0⟩], 100, 0, 0⟩ : BandEvalResult).records,
        r.lower = ((fun _ : ℕ => ((1 : ℚ), (0 : ℚ), (2 : ℚ))) r.train_end).2.1
        ∧ r.upper = ((fun _ : ℕ => ((1 : ℚ), (0 : ℚ), (2 : ℚ))) r.train_end).2.2 :=
  C8_scale1_coverage_roundtrip (List.replicate 33 1) 2 (9/10) (0, 0, 0) false
    (fun _ => (1, 0, 2)) ⟨[⟨31, 32, 1, 1, 0, 2, true, 0, 0, 0⟩], 100, 0, 0⟩
    (by with_unfolding_all rfl)

/-! ## C10 -/

/-- An in-place dictionary update on existing keys preserves the key
sequence. -/
theorem dictSet_keys (kvs : List (String × PyVal)) (k : String) (v : PyVal) :
    (dictSet kvs k v).map Prod.fst = kvs.map Prod.fst := by
  induction kvs with
  | nil => rfl
  | cons p t ih =>
    unfold dictSet at ih ⊢
    simp only [List.map_cons, List.cons.injEq]
    refine ⟨?_, ih⟩
    by_cases h : p.1 = k
    · simp [beq_iff_eq, h]
    · simp [beq_iff_eq, h]

/-- Under a well-formed band argument the prompt builder succeeds. -/
theorem prompt_ok_of_bandOk (indicators : List (String × PyVal))
    (band : Option (List (String × PyVal)))
    (rule_narrative : Option (List (String × PyVal)))
    (rule_alerts : Option (List String))
    (signal_texts : Option (List (String × PyVal)))
    (hband : BandFormatOk band) :
    ∃ s, «_프롬프트_작성» indicators band rule_narrative rule_alerts signal_texts
      = .ok s := by
  unfold «_프롬프트_작성»
  rcases band with _ | b
  · exact ⟨_, rfl⟩
  · simp only [BandFormatOk] at hband
    rcases hband with hb | ⟨⟨qu, hu⟩, ⟨ql, hl⟩, ⟨qc, hc⟩⟩
    · subst hb
      exact ⟨_, rfl⟩
    · have hne : b.isEmpty = false := by
        cases b with
        | nil => simp [dictGet, dictGetD] at hu
        | cons p t => rfl
      simp only [hne, Bool.false_eq_true, if_false, hu, hl, hc]
      exact ⟨_, rfl⟩

/-- A successful try-body result is the full nine-key dictionary. -/
theorem llm_try_body_keys (env : LlmEnv) (json_loads : String → Except PyErr PyVal)
    (resp : HttpResponse) (latency_ms : ℚ) (metadata : List (String × PyVal))
    (d : List (String × PyVal))
    (h : llm_try_body env json_loads resp latency_ms metadata = .ok d) :
    d.map Prod.fst = ["summary", "quick_notes", "actions", "alerts", "model",
      "latency_ms"] ++ metadata.map Prod.fst := by
  unfold llm_try_body at h
  simp only [bind, Except.bind, pure, Except.pure, throw, throwThe,
    MonadExceptOf.throw] at h
  repeat'
    first
    | exact Except.noConfusion h
    | split at h
  simp only [Except.ok.injEq] at h
  subst h
  simp

/-- Under a well-formed band argument the LLM helper never raises: it
returns a dictionary whose keys are either the three-key failure
metadata or the full nine-key success shape. -/
theorem llm_returns_dict (env : LlmEnv) (json_loads : String → Except PyErr PyVal)
    (indicators : List (String × PyVal)) (band : Option (List (String × PyVal)))
    (rule_narrative : Option (List (String × PyVal)))
    (rule_alerts : Option (List String))
    (signal_texts : Option (List (String × PyVal)))
    (httpOutcome : Except PyErr HttpResponse) (latency_ms : ℚ)
    (hband : BandFormatOk band) :
    ∃ d, «llm_브리핑_생성» env json_loads indicators band rule_narrative rule_alerts
        signal_texts httpOutcome latency_ms = .ok d
      ∧ (d.map Prod.fst = ["attempted", "error", "http_status"]
        ∨ d.map Prod.fst = ["summary", "quick_notes", "actions", "alerts", "model",
            "latency_ms", "attempted", "error", "http_status"]) := by
  unfold «llm_브리핑_생성»
  by_cases hkey : env.apiKey.getD "" = ""
  · rw [if_pos hkey]
    refine ⟨_, rfl, Or.inl ?_⟩
    rw [dictSet_keys]
    rfl
  · rw [if_neg hkey]
    obtain ⟨s, hs⟩ := prompt_ok_of_bandOk indicators band rule_narrative rule_alerts
      signal_texts hband
    rw [hs]
    rcases httpOutcome with e | resp
    · refine ⟨_, rfl, Or.inl ?_⟩
      rw [dictSet_keys, dictSet_keys]
      rfl
    · dsimp only
      rcases hat : llm_try_body env json_loads resp latency_ms
          (dictSet (dictSet [("attempted", PyVal.bool false), ("error", PyVal.none),
            ("http_status", PyVal.none)] "attempted" (PyVal.bool true))
            "http_status" (PyVal.num resp.status)) with e2 | d
      · refine ⟨_, rfl, Or.inl ?_⟩
        rw [dictSet_keys, dictSet_keys, dictSet_keys]
        rfl
      · refine ⟨_, rfl, Or.inr ?_⟩
        rw [llm_try_body_keys env json_loads resp latency_ms _ d hat,
          dictSet_keys, dictSet_keys]
        rfl

/-- C10 counterexample: with an API key present and a non-empty band
dictionary lacking the numeric `upper` key, the helper RAISES — the
prompt is built before the `try` block and `format(None, ".1f")` throws
— refuting "for every input ... it never raises and always returns a
dictionary". -/
theorem C10_counterexample :
    «llm_브리핑_생성»
        ⟨some "sk-test", "gpt-4o-mini", "https://api.openai.com/v1", 35/100⟩
        (fun _ => .error (.valueError "json"))
        [] (some [("horizon_label", .str "3개월 ARIMA")]) Option.none Option.none
        Option.none (.error (.valueError "network unreachable")) 0
      = .error (.typeError "unsupported format string passed to NoneType.__format__") := by
  with_unfolding_all rfl

/-- C10 (amended): for every input whose band argument is well-formed
(falsy, or carrying numeric upper/lower/center — the only shapes the
insight build passes), the LLM helper never raises and always returns a
dictionary; the dictionary is non-empty, and it is either the
three-entry attempted/error/http_status failure metadata — containing no
summary, quick_notes, actions or alerts entries — or the full nine-entry
success shape.  With a truthy malformed band dict the prompt builder,
which runs before the `try`, can raise (see the counterexample). -/
theorem C10_llm_helper_amended
    (env : LlmEnv) (json_loads : String → Except PyErr PyVal)
    (indicators : List (String × PyVal)) (band : Option (List (String × PyVal)))
    (rule_narrative : Option (List (String × PyVal)))
    (rule_alerts : Option (List String))
    (signal_texts : Option (List (String × PyVal)))
    (httpOutcome : Except PyErr HttpResponse) (latency_ms : ℚ)
    (hband : BandFormatOk band) :
    ∃ d, «llm_브리핑_생성» env json_loads indicators band rule_narrative rule_alerts
        signal_texts httpOutcome latency_ms = .ok d
      ∧ d ≠ []
      ∧ ((d.map Prod.fst = ["attempted", "error", "http_status"]
            ∧ "summary" ∉ d.map Prod.fst ∧ "quick_notes" ∉ d.map Prod.fst
            ∧ "actions" ∉ d.map Prod.fst ∧ "alerts" ∉ d.map Prod.fst)
        ∨ d.map Prod.fst = ["summary", "quick_notes", "actions", "alerts", "model",
            "latency_ms", "attempted", "error", "http_status"]) := by
  obtain ⟨d, hd, hshape⟩ := llm_returns_dict env json_loads indicators band
    rule_narrative rule_alerts signal_texts httpOutcome latency_ms hband
  refine ⟨d, hd, ?_, ?_⟩
  · intro hnil
    subst hnil
    rcases hshape with h | h <;> simp at h
  · rcases hshape with h | h
    · refine Or.inl ⟨h, ?_, ?_, ?_, ?_⟩ <;> rw [h] <;> decide
    · exact Or.inr h

/-- Witness for C10 (amended): no API key set, failing JSON decoder and
a network error — the helper still returns a dictionary. -/
theorem C10_llm_helper_amended_witness :
    ∃ d, «llm_브리핑_생성»
        ⟨Option.none, "gpt-4o-mini", "https://api.openai.com/v1", 35/100⟩
        (fun _ => .error (.valueError "json")) [] Option.none Option.none
        Option.none Option.none (.error (.valueError "network")) 0 = .ok d
      ∧ d ≠ []
      ∧ ((d.map Prod.fst = ["attempted", "error", "http_status"]
            ∧ "summary" ∉ d.map Prod.fst ∧ "quick_notes" ∉ d.map Prod.fst
            ∧ "actions" ∉ d.map Prod.fst ∧ "alerts" ∉ d.map Prod.fst)
        ∨ d.map Prod.fst = ["summary", "quick_notes", "actions", "alerts", "model",
            "latency_ms", "attempted", "error", "http_status"]) :=
  C10_llm_helper_amended
    ⟨Option.none, "gpt-4o-mini", "https://api.openai.com/v1", 35/100⟩
    (fun _ => .error (.valueError "json")) [] Option.none Option.none
    Option.none Option.none (.error (.valueError "network")) 0 trivial

/-! ## C9 -/

/-- Under a well-formed band argument the LLM helper cannot raise. -/
theorem llm_no_raise (env : LlmEnv) (json_loads : String → Except PyErr PyVal)
    (indicators : List (String × PyVal)) (band : Option (List (String × PyVal)))
    (rule_narrative : Option (List (String × PyVal)))
    (rule_alerts : Option (List String))
    (signal_texts : Option (List (String × PyVal)))
    (httpOutcome : Except PyErr HttpResponse) (latency_ms : ℚ)
    (hband : BandFormatOk band) (e : PyErr) :
    «llm_브리핑_생성» env json_loads indicators band rule_narrative rule_alerts
      signal_texts httpOutcome latency_ms ≠ .error e := by
  obtain ⟨d, hd, _⟩ := llm_returns_dict env json_loads indicators band
    rule_narrative rule_alerts signal_texts httpOutcome latency_ms hband
  rw [hd]
  exact fun h => Except.noConfusion h

/-- C9: if the internal forecast-band computation raises, the insight
build still completes with a full payload whose `band` is `None` and
whose confidence score is computed with `band_range_pct = 0` (hence a
zero band-width penalty, by the truthiness guard in
`_신뢰도점수_계산`); the forecast failure is absorbed, never
propagated. -/
theorem C9_forecast_failure_absorbed
    (symbol : String) (ind : «지표스냅샷») (e : PyErr) (liquidity_bonus : ℚ)
    (env : LlmEnv) (json_loads : String → Except PyErr PyVal)
    (httpOutcome : Except PyErr HttpResponse) (latency_ms : ℚ)
    (hwf : WellFormedSnapshot ind) :
    ∃ payload, «결정인사이트_생성» symbol ind (.error e) liquidity_bonus env
        json_loads httpOutcome latency_ms = .ok payload
      ∧ payload.band = Option.none
      ∧ payload.confidence = «_신뢰도점수_계산» («trend_score_계산» ind)
          («momentum_score_계산» ind) («_변동성점수_계산» ind.hv20_pct)
          0 liquidity_bonus := by
  by_cases hv : ind.vkospi_level.getD 0 ≠ 0
  · obtain ⟨ch, hch⟩ : ∃ ch, ind.vkospi_change_pct = some ch := by
      rcases h : ind.vkospi_change_pct with _ | ch
      · exact absurd h (hwf hv)
      · exact ⟨ch, rfl⟩
    simp only [«결정인사이트_생성», «_예측밴드_요약», hch, if_pos hv,
      Option.map_none']
    split
    · rename_i e2 heq
      exact absurd heq (llm_no_raise _ _ _ _ _ _ _ _ _ (by exact trivial) e2)
    · exact ⟨_, rfl, rfl, rfl⟩
  · simp only [«결정인사이트_생성», «_예측밴드_요약», if_neg hv, Option.map_none']
    split
    · rename_i e2 heq
      exact absurd heq (llm_no_raise _ _ _ _ _ _ _ _ _ (by exact trivial) e2)
    · exact ⟨_, rfl, rfl, rfl⟩

/-- Witness for C9 at the sample snapshot (no VKOSPI data, so
well-formedness holds trivially) with every external effect failing. -/
theorem C9_forecast_failure_absorbed_witness :
    ∃ payload, «결정인사이트_생성» "TEST" sampleSnapshot
        (.error (.valueError "forecast failed")) 0
        ⟨Option.none, "gpt-4o-mini", "https://api.openai.com/v1", 35/100⟩
        (fun _ => .error (.valueError "json")) (.error (.valueError "network")) 0
        = .ok payload
      ∧ payload.band = Option.none
      ∧ payload.confidence = «_신뢰도점수_계산» («trend_score_계산» sampleSnapshot)
          («momentum_score_계산» sampleSnapshot)
          («_변동성점수_계산» sampleSnapshot.hv20_pct) 0 0 :=
  C9_forecast_failure_absorbed "TEST" sampleSnapshot (.valueError "forecast failed") 0
    ⟨Option.none, "gpt-4o-mini", "https://api.openai.com/v1", 35/100⟩
    (fun _ => .error (.valueError "json")) (.error (.valueError "network")) 0
    (fun h => absurd rfl h)

/-! ## C1 -/

/-- C1 (code bug): at a well-formed snapshot with the LLM path disabled
(no API key), the build completes without raising and the four content
fields are exactly the non-empty rule-based ones — but the payload's
narrative source field is "openai", not "rule".  `llm_브리핑_생성`
always returns a non-empty metadata dictionary even on failure,
contradicting llm_service.py's own docstring ("호출 실패 시 None을
반환해 룰 기반 브리핑으로 폴백"), so the truthiness test
`if llm_brief:` in analysis_service.py line 388 always fires. -/
theorem C1_narrative_source_code_bug :
    ∃ payload, «결정인사이트_생성» "TEST" sampleSnapshot
        (.error (.valueError "forecast down")) 0
        ⟨Option.none, "gpt-4o-mini", "https://api.openai.com/v1", 35/100⟩
        (fun _ => .error (.valueError "json")) (.error (.valueError "network down")) 0
        = .ok payload
      ∧ payload.narrative_source = "openai"
      ∧ payload.narrative_source ≠ "rule"
      ∧ payload.summary = .str ((«_내러티브_작성» sampleSnapshot Option.none).summary)
      ∧ payload.quick_notes
          = .list ((«_내러티브_작성» sampleSnapshot Option.none).quick_notes.map PyVal.str)
      ∧ payload.actions
          = .list ((«_내러티브_작성» sampleSnapshot Option.none).actions.map PyVal.str)
      ∧ payload.alerts = .list ((«_알림_리스트» sampleSnapshot Option.none).map PyVal.str)
      ∧ pyTruthy payload.summary = true
      ∧ pyTruthy payload.quick_notes = true
      ∧ pyTruthy payload.actions = true
      ∧ pyTruthy payload.alerts = true := by
  exact ⟨_, by with_unfolding_all rfl, by with_unfolding_all rfl, by decide,
    by with_unfolding_all rfl, by with_unfolding_all rfl, by with_unfolding_all rfl,
    by with_unfolding_all rfl, by with_unfolding_all rfl, by with_unfolding_all rfl,
    by with_unfolding_all rfl, by with_unfolding_all rfl⟩
